import Mathlib

/-!
# Verification of the Flawless Finish booking server

Shallow embedding of the booking ledger, availability calculator and
booking transaction handlers of `server.js` (the file contains two
server variants: "v6" at the top and "v5" below it; definitions are
suffixed `V6` / `V5` accordingly).

Modelling conventions:
* Calendar dates are day indices (`Nat`), counted from an epoch day
  that is a Sunday, so `d % 7` is the JavaScript `Date.getDay()`
  weekday (0 = Sunday .. 6 = Saturday).  `toYMD` normalises a date to
  its `YYYY-MM-DD` string in the source; on day indices it is the
  identity, so it is inlined.
* The bookings file is a `FileState`: absent, corrupt (present but
  unreadable or not valid JSON), or a parsed list of records.
* External effects (Stripe retrieval/creation, email transport, the
  file write) are passed in as explicit outcome parameters; a `none`
  outcome for a gateway call models the promise rejecting, which the
  handler try/catch turns into a 500 response.
-/

namespace FlawlessFinish

/-- A persisted booking record (`bookings.json` entry), as pushed by the
v6 handlers: `date`, `name`, `phone`, `email`, `method`, `deposit`,
optional `stripePaymentId` (present only on the card path), `createdAt`. -/
structure Booking where
  date : Nat
  name : String
  phone : String
  email : String
  method : String
  deposit : Nat
  stripePaymentId : Option String
  createdAt : Nat
deriving Repr, DecidableEq

/-- State of the `bookings.json` file: missing, present but failing to
read or to parse as JSON, or holding a JSON array of records. -/
inductive FileState where
  | absent : FileState
  | corrupt : FileState
  | content : List Booking → FileState
deriving Repr, DecidableEq

/-- `readBookings` (server.js:51-58): returns `[]` when the file does
not exist and when reading or JSON-parsing throws; otherwise the parsed
array. -/
def readBookings : FileState → List Booking
  | .absent => []
  | .corrupt => []
  | .content bs => bs

/-- `writeBookings` (server.js:60-64): rewrites the file wholesale with
the given array; a throwing write is swallowed by `catch {}`, leaving
the previous file contents in place.  `ok` is whether the write
succeeds. -/
def writeBookings (ok : Bool) (bs : List Booking) (fs : FileState) : FileState :=
  if ok then .content bs else fs

/-- `bookings.some(b => b.date === ymd)` — the date-conflict membership
test used by every handler. -/
def dateTaken (bs : List Booking) (d : Nat) : Bool :=
  bs.any (fun b => b.date == d)

/-- Characters removed from a phone number before the format check
(the `phone.replace` call deleting the class `[\s\-\(\)]`). -/
def isPhoneSeparator (c : Char) : Bool :=
  c.isWhitespace || c == '-' || c == '(' || c == ')'

/-- `validatePhone` (server.js:75-78): after stripping separators the
string must match `^[\+]?[1-9][\d]{0,15}$`. -/
def validatePhone (phone : String) : Bool :=
  let stripped := phone.data.filter (fun c => !isPhoneSeparator c)
  let core := match stripped with
    | '+' :: rest => rest
    | cs => cs
  match core with
  | [] => false
  | c :: rest => ('1' ≤ c && c ≤ '9') && rest.length ≤ 15 && rest.all Char.isDigit

/-- A character admissible in the atoms of the email regex: `[^\s@]`. -/
def isEmailAtomChar (c : Char) : Bool :=
  !c.isWhitespace && c != '@'

/-- `validateEmail` (server.js:80-83): the string must match
`^[^\s@]+@[^\s@]+\.[^\s@]+$` — exactly one `@`, a nonempty local part,
and a domain part containing a `.` that is neither its first nor its
last character. -/
def validateEmail (email : String) : Bool :=
  match email.splitOn "@" with
  | [loc, dom] =>
    !loc.isEmpty && loc.data.all isEmailAtomChar &&
    !dom.isEmpty && dom.data.all isEmailAtomChar &&
    (dom.data.dropLast.drop 1).contains '.'
  | _ => false

/-- JavaScript `String.prototype.trim`: strip leading and trailing
whitespace.  Written on the character list so that it is fully
executable (the library `String.trim` is kernel-irreducible). -/
def jsTrim (s : String) : String :=
  ⟨((s.data.dropWhile Char.isWhitespace).reverse.dropWhile
      Char.isWhitespace).reverse⟩

/-- JavaScript `str.slice(0, n)`: the first `n` characters. -/
def jsSlice (s : String) (n : Nat) : String :=
  ⟨s.data.take n⟩

/-- `sanitizeInput` (server.js:85-87):
slice to `maxLength` characters, then trim whitespace. -/
def sanitizeInput (input : String) (maxLength : Nat) : String :=
  jsTrim (jsSlice input maxLength)

/-- Outcome of the email transport: the SMTP send either goes through
or fails (unreachable host, timeout, rejected message). -/
inductive EmailOutcome where
  | sent : EmailOutcome
  | failed : EmailOutcome
deriving Repr, DecidableEq

/-- `sendEmailNotification` (server.js:103-175): the whole send is
wrapped in `try { ... } catch (err) { console.error(...) }`, so the
function resolves normally whatever the transport does — a failure is
logged and swallowed, never rethrown to the calling handler. -/
def sendEmailNotification (outcome : EmailOutcome) : Except String Unit :=
  match outcome with
  | .sent => .ok ()
  | .failed => .ok ()

/-- A retrieved Stripe payment intent: only its `status` matters to the
handlers. -/
structure PaymentIntent where
  status : String
deriving Repr, DecidableEq

/-- HTTP response, abstracting status code + JSON body of the handlers:
`ok` is the 200 success body (date, method), `intentCreated` the 200
body of create-payment-intent, `conflict` the 409, `badRequest` the 400
with its message, `serverError` the 500. -/
inductive Resp where
  | ok : Nat → String → Resp
  | intentCreated : String → Resp
  | conflict : Resp
  | badRequest : String → Resp
  | serverError : Resp
deriving Repr, DecidableEq

/-- Request body of `POST /api/book-cash` / `POST /api/create-payment-intent`:
`{date, name, phone, email}`.  `date = none` models a missing/falsy
date; an absent email is the empty string (both are falsy in JS). -/
structure BookReq where
  date : Option Nat
  name : String
  phone : String
  email : String
deriving Repr, DecidableEq

/-- Request body of `POST /api/confirm-payment`:
`{paymentIntentId, date, name, phone, email}`. -/
structure ConfirmReq where
  paymentIntentId : String
  date : Option Nat
  name : String
  phone : String
  email : String
deriving Repr, DecidableEq

/-- `POST /api/book-cash` (server.js:342-393, v6).  Validates the
fields, re-checks the date against the ledger, appends a
`method: cash, deposit: 0` record, writes the file and sends the
notification email; a rejection from `sendEmailNotification` would be
caught by the outer `try/catch` as a 500, but the record is written
before the send.  `now` is the clock read for `createdAt`, `writeOk`
whether the file write succeeds, `emailOutcome` what the transport
does. -/
def bookCashV6 (req : BookReq) (now : Nat) (writeOk : Bool)
    (emailOutcome : EmailOutcome) (fs : FileState) : Resp × FileState :=
  match req.date with
  | none => (.badRequest "Please select a date.", fs)
  | some d =>
    if (jsTrim req.name).length < 2 then
      (.badRequest "Please enter a valid name (minimum 2 characters).", fs)
    else if !validatePhone req.phone then
      (.badRequest "Please enter a valid phone number.", fs)
    else if req.email != "" && !validateEmail req.email then
      (.badRequest "Please enter a valid email address.", fs)
    else
      let bookings := readBookings fs
      if dateTaken bookings d then (.conflict, fs)
      else
        let record : Booking :=
          { date := d
            name := sanitizeInput req.name 80
            phone := sanitizeInput req.phone 40
            email := sanitizeInput req.email 100
            method := "cash"
            deposit := 0
            stripePaymentId := none
            createdAt := now }
        let fs' := writeBookings writeOk (bookings ++ [record]) fs
        match sendEmailNotification emailOutcome with
        | .error _ => (.serverError, fs')
        | .ok _ => (.ok d "cash", fs')

/-- `POST /api/confirm-payment` (server.js:269-339, v6).  `stripeOk`
models whether the Stripe client is configured; `retrieve` is
`stripe.paymentIntents.retrieve`, with `none` modelling a rejected
retrieval (caught as a 500).  On a `succeeded` intent and a free date
it appends a `method: card, deposit: 250` record carrying the intent
id, writes the file and sends the notification. -/
def confirmPaymentV6 (stripeOk : Bool) (retrieve : String → Option PaymentIntent)
    (req : ConfirmReq) (now : Nat) (writeOk : Bool)
    (emailOutcome : EmailOutcome) (fs : FileState) : Resp × FileState :=
  if !stripeOk then (.serverError, fs)
  else if req.paymentIntentId == "" || req.date == none then
    (.badRequest "Missing payment or date information.", fs)
  else
    match retrieve req.paymentIntentId with
    | none => (.serverError, fs)
    | some intent =>
      if intent.status != "succeeded" then
        (.badRequest "Payment not completed.", fs)
      else
        match req.date with
        | none => (.badRequest "Missing payment or date information.", fs)
        | some d =>
          let bookings := readBookings fs
          if dateTaken bookings d then (.conflict, fs)
          else
            let record : Booking :=
              { date := d
                name := sanitizeInput req.name 80
                phone := sanitizeInput req.phone 40
                email := sanitizeInput req.email 100
                method := "card"
                deposit := 250
                stripePaymentId := some req.paymentIntentId
                createdAt := now }
            let fs' := writeBookings writeOk (bookings ++ [record]) fs
            match sendEmailNotification emailOutcome with
            | .error _ => (.serverError, fs')
            | .ok _ => (.ok d "card", fs')

/-- `POST /api/create-payment-intent` (server.js:220-266, v6).
Validates the fields, checks the date is free, and asks Stripe for an
intent (`createResult`, `none` = the call rejects, caught as a 500).
The ledger file is read for the conflict check but `writeBookings` is
never called on any path. -/
def createPaymentIntentV6 (stripeOk : Bool) (createResult : Option String)
    (req : BookReq) (fs : FileState) : Resp × FileState :=
  if !stripeOk then (.serverError, fs)
  else
    match req.date with
    | none => (.badRequest "Please select a date.", fs)
    | some d =>
      if (jsTrim req.name).length < 2 then
        (.badRequest "Please enter a valid name (minimum 2 characters).", fs)
      else if !validatePhone req.phone then
        (.badRequest "Please enter a valid phone number.", fs)
      else if req.email != "" && !validateEmail req.email then
        (.badRequest "Please enter a valid email address.", fs)
      else
        let bookings := readBookings fs
        if dateTaken bookings d then (.conflict, fs)
        else
          match createResult with
          | none => (.serverError, fs)
          | some intentId => (.intentCreated intentId, fs)

/-- `POST /api/create-payment-intent` (server.js:982-1016, v5).  Looser
validation (nonempty trimmed name/phone), no ledger access at all: the
intent is created and returned without reading or writing the bookings
file. -/
def createPaymentIntentV5 (stripeOk : Bool) (createResult : Option String)
    (date : Option Nat) (name phone : String) (fs : FileState) : Resp × FileState :=
  if !stripeOk then (.serverError, fs)
  else
    match date with
    | none => (.badRequest "Please select a date.", fs)
    | some _ =>
      if (jsTrim name).length = 0 then
        (.badRequest "Please enter your name.", fs)
      else if (jsTrim phone).length = 0 then
        (.badRequest "Please enter your phone number.", fs)
      else
        match createResult with
        | none => (.serverError, fs)
        | some intentId => (.intentCreated intentId, fs)

/-- One availability entry as returned by `GET /api/availability`
(display-formatted labels omitted): the `YYYY-MM-DD` date key and the
`booked` flag. -/
structure AvailEntry where
  date : Nat
  booked : Bool
deriving Repr, DecidableEq

/-- `GET /api/availability` (server.js:189-217, v6).  The horizon is
`Math.min(days, 90)`; the loop runs offsets `1..days` from the
normalized `today`, skips Sundays (`getDay() === 0`), and marks each
remaining date with the ledger membership test. -/
def availabilityV6 (today : Nat) (daysReq : Nat) (bs : List Booking) : List AvailEntry :=
  let days := min daysReq 90
  (List.range days).filterMap (fun j =>
    let d := today + (j + 1)
    if d % 7 == 0 then none
    else some { date := d, booked := dateTaken bs d })

/-- `GET /api/availability` (server.js:960-979, v5).  No cap on `days`;
the loop runs offsets `0..days-1` (today itself included), skips
Sundays, and marks each remaining date with the ledger membership
test. -/
def availabilityV5 (today : Nat) (daysReq : Nat) (bs : List Booking) : List AvailEntry :=
  (List.range daysReq).filterMap (fun i =>
    let d := today + i
    if d % 7 == 0 then none
    else some { date := d, booked := dateTaken bs d })

/-- A booking operation, for sequencing: either a cash booking or a
card confirmation, each with its request and effect outcomes. -/
inductive Op where
  | cash : BookReq → Nat → Bool → EmailOutcome → Op
  | card : Bool → (String → Option PaymentIntent) → ConfirmReq → Nat →
      Bool → EmailOutcome → Op

/-- Effect of one operation on the bookings file. -/
def Op.step : Op → FileState → FileState
  | .cash req now writeOk e, fs => (bookCashV6 req now writeOk e fs).2
  | .card stripeOk retrieve req now writeOk e, fs =>
      (confirmPaymentV6 stripeOk retrieve req now writeOk e fs).2

/-- Effect of a sequence of operations, executed left to right. -/
def runOps (ops : List Op) (fs : FileState) : FileState :=
  ops.foldl (fun s op => op.step s) fs

/-- The ledger invariant: no two records share a date. -/
def datesNodup (bs : List Booking) : Prop :=
  (bs.map Booking.date).Nodup

instance (bs : List Booking) : Decidable (datesNodup bs) := by
  unfold datesNodup; infer_instance

/-! ## Helper lemmas -/

/-- The conflict test is membership of the date in the ledger date set. -/
theorem dateTaken_iff {bs : List Booking} {d : Nat} :
    dateTaken bs d = true ↔ d ∈ bs.map Booking.date := by
  simp [dateTaken, List.any_eq_true, List.mem_map]

theorem dateTaken_eq_false_iff {bs : List Booking} {d : Nat} :
    dateTaken bs d = false ↔ d ∉ bs.map Booking.date := by
  rw [← Bool.not_eq_true, not_iff_not]; exact dateTaken_iff

/-- Reading back after a write: the written list on success, the old
contents on a swallowed write failure. -/
theorem readBookings_writeBookings (ok : Bool) (bs : List Booking) (fs : FileState) :
    readBookings (writeBookings ok bs fs) = if ok then bs else readBookings fs := by
  unfold writeBookings
  by_cases h : ok = true <;> simp [h, readBookings]

/-- Appending a record whose date is free preserves date-uniqueness. -/
theorem datesNodup_snoc {bs : List Booking} {b : Booking}
    (h : datesNodup bs) (hfree : dateTaken bs b.date = false) :
    datesNodup (bs ++ [b]) := by
  unfold datesNodup at h ⊢
  rw [List.map_append, List.map_singleton, List.nodup_append]
  refine ⟨h, List.nodup_singleton _, ?_⟩
  intro x hx hx1
  rw [List.mem_singleton] at hx1
  subst hx1
  exact dateTaken_eq_false_iff.mp hfree hx

/-- The cash record a successful `POST /api/book-cash` (v6) appends. -/
def cashRecord (req : BookReq) (d now : Nat) : Booking :=
  { date := d
    name := sanitizeInput req.name 80
    phone := sanitizeInput req.phone 40
    email := sanitizeInput req.email 100
    method := "cash"
    deposit := 0
    stripePaymentId := none
    createdAt := now }

/-- The card record a successful `POST /api/confirm-payment` (v6) appends. -/
def cardRecord (req : ConfirmReq) (d now : Nat) : Booking :=
  { date := d
    name := sanitizeInput req.name 80
    phone := sanitizeInput req.phone 40
    email := sanitizeInput req.email 100
    method := "card"
    deposit := 250
    stripePaymentId := some req.paymentIntentId
    createdAt := now }

/-- Success path of the v6 cash handler: valid fields and a free date
give a 200 response and an appended `cash` record, whatever the email
transport does. -/
theorem bookCashV6_success_spec (req : BookReq) (now : Nat) (writeOk : Bool)
    (e : EmailOutcome) (fs : FileState) (d : Nat)
    (hdate : req.date = some d)
    (hname : 2 ≤ (jsTrim req.name).length)
    (hphone : validatePhone req.phone = true)
    (hemail : (req.email != "" && !validateEmail req.email) = false)
    (hfree : dateTaken (readBookings fs) d = false) :
    bookCashV6 req now writeOk e fs =
      (.ok d "cash",
       writeBookings writeOk (readBookings fs ++ [cashRecord req d now]) fs) := by
  unfold bookCashV6
  rw [hdate]
  dsimp only
  rw [if_neg (by omega), if_neg (by simp [hphone]), if_neg (by simp [hemail]),
    if_neg (by simp [hfree])]
  cases e <;> rfl

/-- Success path of the v6 confirm handler: a configured gateway, a
retrievable `succeeded` intent and a free date give a 200 response and
an appended `card` record, whatever the email transport does. -/
theorem confirmPaymentV6_success_spec (retrieve : String → Option PaymentIntent)
    (req : ConfirmReq) (now : Nat) (writeOk : Bool) (e : EmailOutcome)
    (fs : FileState) (d : Nat) (intent : PaymentIntent)
    (hpid : req.paymentIntentId ≠ "")
    (hdate : req.date = some d)
    (hret : retrieve req.paymentIntentId = some intent)
    (hstatus : intent.status = "succeeded")
    (hfree : dateTaken (readBookings fs) d = false) :
    confirmPaymentV6 true retrieve req now writeOk e fs =
      (.ok d "card",
       writeBookings writeOk (readBookings fs ++ [cardRecord req d now]) fs) := by
  unfold confirmPaymentV6
  rw [if_neg (by simp), if_neg (by simp [hpid, hdate]), hret]
  dsimp only
  rw [if_neg (by simp [hstatus]), hdate]
  dsimp only
  rw [if_neg (by simp [hfree])]
  cases e <;> rfl

/-- The v6 cash handler either leaves the bookings file alone or
appends the cash record for a date it has just checked to be free. -/
theorem bookCashV6_state (req : BookReq) (now : Nat) (writeOk : Bool)
    (e : EmailOutcome) (fs : FileState) :
    (bookCashV6 req now writeOk e fs).2 = fs ∨
    ∃ d, req.date = some d ∧ dateTaken (readBookings fs) d = false ∧
      (bookCashV6 req now writeOk e fs).2 =
        writeBookings writeOk (readBookings fs ++ [cashRecord req d now]) fs := by
  unfold bookCashV6
  split
  · exact .inl rfl
  next d hd =>
    split
    · exact .inl rfl
    split
    · exact .inl rfl
    split
    · exact .inl rfl
    split
    next a herr => cases e <;> simp [sendEmailNotification] at herr
    dsimp only
    split
    · exact .inl rfl
    next h4 => exact .inr ⟨d, hd, by simpa using h4, rfl⟩

/-- The v6 confirm handler either leaves the bookings file alone or
appends the card record for a date it has just checked to be free. -/
theorem confirmPaymentV6_state (stripeOk : Bool)
    (retrieve : String → Option PaymentIntent) (req : ConfirmReq)
    (now : Nat) (writeOk : Bool) (e : EmailOutcome) (fs : FileState) :
    (confirmPaymentV6 stripeOk retrieve req now writeOk e fs).2 = fs ∨
    ∃ d, req.date = some d ∧ dateTaken (readBookings fs) d = false ∧
      (confirmPaymentV6 stripeOk retrieve req now writeOk e fs).2 =
        writeBookings writeOk (readBookings fs ++ [cardRecord req d now]) fs := by
  unfold confirmPaymentV6
  split
  · exact .inl rfl
  split
  · exact .inl rfl
  split
  · exact .inl rfl
  split
  · exact .inl rfl
  split
  · exact .inl rfl
  next d hd =>
    split
    next a herr => cases e <;> simp [sendEmailNotification] at herr
    dsimp only
    split
    · exact .inl rfl
    next h4 => exact .inr ⟨d, hd, by simpa using h4, rfl⟩

/-- One booking operation preserves date-uniqueness of the ledger. -/
theorem datesNodup_step (op : Op) (fs : FileState)
    (h : datesNodup (readBookings fs)) :
    datesNodup (readBookings (op.step fs)) := by
  have key : ∀ (writeOk : Bool) (b : Booking),
      dateTaken (readBookings fs) b.date = false →
      datesNodup (readBookings
        (writeBookings writeOk (readBookings fs ++ [b]) fs)) := by
    intro writeOk b hfree
    rw [readBookings_writeBookings]
    split
    · exact datesNodup_snoc h hfree
    · exact h
  cases op with
  | cash req now writeOk e =>
    show datesNodup (readBookings (bookCashV6 req now writeOk e fs).2)
    rcases bookCashV6_state req now writeOk e fs with heq | ⟨d, _, hfree, heq⟩
    · rw [heq]; exact h
    · rw [heq]; exact key writeOk (cashRecord req d now) hfree
  | card stripeOk retrieve req now writeOk e =>
    show datesNodup
      (readBookings (confirmPaymentV6 stripeOk retrieve req now writeOk e fs).2)
    rcases confirmPaymentV6_state stripeOk retrieve req now writeOk e fs with
      heq | ⟨d, _, hfree, heq⟩
    · rw [heq]; exact h
    · rw [heq]; exact key writeOk (cardRecord req d now) hfree

/-- Every entry the v6 availability loop emits carries the ledger
membership test as its `booked` flag, and its date is one of the
offsets `1..horizon` from today. -/
theorem mem_availabilityV6 {today daysReq : Nat} {bs : List Booking}
    {entry : AvailEntry} (hmem : entry ∈ availabilityV6 today daysReq bs) :
    entry.booked = dateTaken bs entry.date ∧
    entry.date % 7 ≠ 0 ∧
    ∃ j < min daysReq 90, entry.date = today + (j + 1) := by
  unfold availabilityV6 at hmem
  rw [List.mem_filterMap] at hmem
  obtain ⟨j, hj, hentry⟩ := hmem
  rw [List.mem_range] at hj
  by_cases hmod : (today + (j + 1)) % 7 == 0
  · simp [hmod] at hentry
  · simp only [hmod, if_neg, Bool.false_eq_true, not_false_iff, reduceIte,
      Option.some.injEq] at hentry
    subst hentry
    refine ⟨rfl, by simpa using hmod, j, hj, rfl⟩

/-- Same for the v5 availability loop, with offsets `0..days-1` and no
cap. -/
theorem mem_availabilityV5 {today daysReq : Nat} {bs : List Booking}
    {entry : AvailEntry} (hmem : entry ∈ availabilityV5 today daysReq bs) :
    entry.booked = dateTaken bs entry.date ∧
    entry.date % 7 ≠ 0 ∧
    ∃ j < daysReq, entry.date = today + j := by
  unfold availabilityV5 at hmem
  rw [List.mem_filterMap] at hmem
  obtain ⟨j, hj, hentry⟩ := hmem
  rw [List.mem_range] at hj
  by_cases hmod : (today + j) % 7 == 0
  · simp [hmod] at hentry
  · simp only [hmod, if_neg, Bool.false_eq_true, not_false_iff, reduceIte,
      Option.some.injEq] at hentry
    subst hentry
    refine ⟨rfl, by simpa using hmod, j, hj, rfl⟩

/-! ## Claims -/

/-- **C1**: every sequence of booking operations (cash bookings via
book-cash and card confirmations via confirm-payment), executed
sequentially from a ledger with at most one record per date, leaves the
ledger with at most one record per date: each operation checks whether
any existing record has the target date and appends only when none
does. -/
theorem booking_ops_preserve_onePerDate (ops : List Op) (fs : FileState)
    (h : datesNodup (readBookings fs)) :
    datesNodup (readBookings (runOps ops fs)) := by
  induction ops generalizing fs with
  | nil => exact h
  | cons op ops ih => exact ih (op.step fs) (datesNodup_step op fs h)

theorem booking_ops_preserve_onePerDate_witness :
    datesNodup (readBookings (runOps
      [.cash ⟨some 2, "Bob Smith", "5551234", ""⟩ 0 true .sent,
       .card true (fun _ => some ⟨"succeeded"⟩)
         ⟨"pi_1", some 3, "Ann Lee", "5559876", ""⟩ 1 true .failed,
       .cash ⟨some 3, "Cal Ray", "5550000", ""⟩ 2 true .sent]
      (.content []))) :=
  booking_ops_preserve_onePerDate _ _ (by decide)

/-- **C2**: a confirm-payment request whose payment intent, when
retrieved from the gateway, has a status other than `succeeded` is
rejected with the payment-incomplete error and the ledger is unchanged
— no booking record is created. -/
theorem confirmPayment_incomplete_rejects_unchanged
    (retrieve : String → Option PaymentIntent) (req : ConfirmReq)
    (now : Nat) (writeOk : Bool) (e : EmailOutcome) (fs : FileState)
    (intent : PaymentIntent)
    (hpid : req.paymentIntentId ≠ "")
    (hdate : req.date ≠ none)
    (hret : retrieve req.paymentIntentId = some intent)
    (hstatus : intent.status ≠ "succeeded") :
    confirmPaymentV6 true retrieve req now writeOk e fs =
      (.badRequest "Payment not completed.", fs) := by
  unfold confirmPaymentV6
  rw [if_neg (by simp), if_neg (by simp [hpid, hdate]), hret]
  dsimp only
  rw [if_pos (by simp [hstatus])]

theorem confirmPayment_incomplete_rejects_unchanged_witness :
    confirmPaymentV6 true (fun _ => some ⟨"requires_payment_method"⟩)
      ⟨"pi_1", some 3, "Bob Smith", "5551234", ""⟩ 0 true .sent
      (.content []) =
      (.badRequest "Payment not completed.", .content []) :=
  confirmPayment_incomplete_rejects_unchanged _ _ _ _ _ _ _
    (by decide) (by decide) rfl (by decide)

/-- **C3**: whatever its inputs and outcome (success, validation error,
conflict or gateway failure), create-payment-intent leaves the bookings
file unchanged, in the v6 handler and in the v5 handler alike: creating
an intent never creates a booking record and never reserves the
date. -/
theorem createPaymentIntent_leaves_ledger_unchanged :
    (∀ (stripeOk : Bool) (createResult : Option String) (req : BookReq)
      (fs : FileState),
      (createPaymentIntentV6 stripeOk createResult req fs).2 = fs) ∧
    (∀ (stripeOk : Bool) (createResult : Option String) (date : Option Nat)
      (name phone : String) (fs : FileState),
      (createPaymentIntentV5 stripeOk createResult date name phone fs).2 = fs) := by
  constructor
  · intro stripeOk createResult req fs
    unfold createPaymentIntentV6
    repeat' first | rfl | split | dsimp only
  · intro stripeOk createResult date name phone fs
    unfold createPaymentIntentV5
    repeat' first | rfl | split

/-- **C4** counterexample: confirming a `succeeded` intent on a free
date records `deposit = 250`, not `250·100 = 25000` minor units — the
record stores the deposit in whole dollars (the `amount: 25000` in
cents is only what is charged at the gateway). -/
theorem confirmPayment_deposit_not_minorUnits :
    (readBookings (confirmPaymentV6 true (fun _ => some ⟨"succeeded"⟩)
        ⟨"pi_9", some 11, "Bob Smith", "5551234", ""⟩ 5 true .sent
        (.content [])).2).map Booking.deposit = [250] ∧
    (250 : Nat) ≠ 250 * 100 := by
  decide

/-- **C4** (amended): a confirm-payment request with a retrieved
`succeeded` intent and a free target date records a booking with
`method = card` and `deposit = 250` — the fixed $250 deposit in whole
dollars, while the gateway intent amount is 250·100 minor units. -/
theorem confirmPayment_records_card_deposit250
    (retrieve : String → Option PaymentIntent) (req : ConfirmReq)
    (now : Nat) (writeOk : Bool) (e : EmailOutcome) (fs : FileState)
    (d : Nat) (intent : PaymentIntent)
    (hpid : req.paymentIntentId ≠ "")
    (hdate : req.date = some d)
    (hret : retrieve req.paymentIntentId = some intent)
    (hstatus : intent.status = "succeeded")
    (hfree : dateTaken (readBookings fs) d = false) :
    confirmPaymentV6 true retrieve req now writeOk e fs =
      (.ok d "card",
       writeBookings writeOk (readBookings fs ++
         [{ date := d
            name := sanitizeInput req.name 80
            phone := sanitizeInput req.phone 40
            email := sanitizeInput req.email 100
            method := "card"
            deposit := 250
            stripePaymentId := some req.paymentIntentId
            createdAt := now }]) fs) :=
  confirmPaymentV6_success_spec retrieve req now writeOk e fs d intent
    hpid hdate hret hstatus hfree

set_option maxRecDepth 4000 in
theorem confirmPayment_records_card_deposit250_witness :
    confirmPaymentV6 true (fun _ => some ⟨"succeeded"⟩)
      ⟨"pi_9", some 11, "Ann Lee", "5559876", ""⟩ 5 true .sent
      (.content []) =
      (.ok 11 "card",
       .content [{ date := 11, name := "Ann Lee", phone := "5559876",
                   email := "", method := "card", deposit := 250,
                   stripePaymentId := some "pi_9", createdAt := 5 }]) := by
  rw [confirmPayment_records_card_deposit250 _ _ _ _ _ _ 11 ⟨"succeeded"⟩
    (by decide) rfl rfl rfl (by decide)]
  decide

/-- **C5**: the `booked` flag of an availability entry is exactly
membership of its date in the ledger date set: `true` for dates present
in the ledger, `false` for dates absent. -/
theorem availability_booked_iff_ledger_membership
    (today daysReq : Nat) (bs : List Booking) (entry : AvailEntry)
    (hmem : entry ∈ availabilityV6 today daysReq bs) :
    entry.booked = true ↔ entry.date ∈ bs.map Booking.date := by
  rw [(mem_availabilityV6 hmem).1]
  exact dateTaken_iff

theorem availability_booked_iff_ledger_membership_witness :
    ((⟨2, true⟩ : AvailEntry).booked = true ↔
      2 ∈ ([⟨2, "Ann Lee", "5559876", "", "cash", 0, none, 0⟩] :
        List Booking).map Booking.date) :=
  availability_booked_iff_ledger_membership 0 3 _ _ (by decide)

/-- **C6**: no availability entry — v6 or v5 — falls on the weekly
closure day (Sunday, weekday 0), regardless of ledger contents and
horizon. -/
theorem availability_never_lists_closureDay :
    (∀ (today daysReq : Nat) (bs : List Booking),
      (availabilityV6 today daysReq bs).all (fun e => e.date % 7 != 0) = true) ∧
    (∀ (today daysReq : Nat) (bs : List Booking),
      (availabilityV5 today daysReq bs).all (fun e => e.date % 7 != 0) = true) := by
  constructor
  · intro today daysReq bs
    rw [List.all_eq_true]
    intro e he
    simpa using (mem_availabilityV6 he).2.1
  · intro today daysReq bs
    rw [List.all_eq_true]
    intro e he
    simpa using (mem_availabilityV5 he).2.1

/-- **C7** counterexample: the v5 availability handler applies no cap —
with `days = 92` the result covers dates more than 90 days beyond
today, so the claim that every availability request is capped at 90
fails on the v5 handler. -/
theorem availabilityV5_exceeds_cap :
    ¬ (∀ e ∈ availabilityV5 1 92 [], e.date ≤ 1 + 90) := by decide

/-- **C7** (amended): the v6 availability handler caps the horizon at
90 — for any requested `days > 90` it computes the same result as
`days = 90`, returns at most 90 entries, and never lists a date more
than 90 days beyond today; the v5 handler applies no cap. -/
theorem availabilityV6_cap (today daysReq : Nat) (bs : List Booking)
    (h : 90 < daysReq) :
    availabilityV6 today daysReq bs = availabilityV6 today 90 bs ∧
    (availabilityV6 today daysReq bs).length ≤ 90 ∧
    ∀ e ∈ availabilityV6 today daysReq bs, e.date ≤ today + 90 := by
  have hmin : min daysReq 90 = 90 := by omega
  refine ⟨?_, ?_, ?_⟩
  · unfold availabilityV6
    rw [hmin, Nat.min_self]
  · have h1 : (availabilityV6 today daysReq bs).length ≤
        (List.range (min daysReq 90)).length := by
      unfold availabilityV6
      exact List.length_filterMap_le _ _
    rw [List.length_range] at h1
    omega
  · intro e he
    obtain ⟨-, -, j, hj, hd⟩ := mem_availabilityV6 he
    omega

theorem availabilityV6_cap_witness :
    availabilityV6 0 91 [] = availabilityV6 0 90 [] ∧
    (availabilityV6 0 91 []).length ≤ 90 ∧
    ∀ e ∈ availabilityV6 0 91 [], e.date ≤ 0 + 90 :=
  availabilityV6_cap 0 91 [] (by decide)

/-- **C8**: once a booking (cash or card-confirm) reaches the point
where the record is appended, the outcome of the notification send is
irrelevant to the caller: for every email transport outcome — including
failure — the endpoint returns the success response and the ledger
contains the new record. -/
theorem emailFailure_never_propagated (now : Nat) (fs : FileState) (d : Nat) :
    (∀ (req : BookReq) (e : EmailOutcome),
      req.date = some d →
      2 ≤ (jsTrim req.name).length →
      validatePhone req.phone = true →
      (req.email != "" && !validateEmail req.email) = false →
      dateTaken (readBookings fs) d = false →
      (bookCashV6 req now true e fs).1 = .ok d "cash" ∧
      readBookings (bookCashV6 req now true e fs).2 =
        readBookings fs ++ [cashRecord req d now]) ∧
    (∀ (retrieve : String → Option PaymentIntent) (req : ConfirmReq)
      (e : EmailOutcome) (intent : PaymentIntent),
      req.paymentIntentId ≠ "" →
      req.date = some d →
      retrieve req.paymentIntentId = some intent →
      intent.status = "succeeded" →
      dateTaken (readBookings fs) d = false →
      (confirmPaymentV6 true retrieve req now true e fs).1 = .ok d "card" ∧
      readBookings (confirmPaymentV6 true retrieve req now true e fs).2 =
        readBookings fs ++ [cardRecord req d now]) := by
  constructor
  · intro req e hdate hname hphone hemail hfree
    rw [bookCashV6_success_spec req now true e fs d hdate hname hphone hemail hfree]
    refine ⟨rfl, ?_⟩
    rw [readBookings_writeBookings]
    simp
  · intro retrieve req e intent hpid hdate hret hstatus hfree
    rw [confirmPaymentV6_success_spec retrieve req now true e fs d intent
      hpid hdate hret hstatus hfree]
    refine ⟨rfl, ?_⟩
    rw [readBookings_writeBookings]
    simp

theorem emailFailure_never_propagated_witness :
    (bookCashV6 ⟨some 2, "Bob Smith", "5551234", ""⟩ 0 true .failed
        (.content [])).1 = .ok 2 "cash" ∧
    readBookings (bookCashV6 ⟨some 2, "Bob Smith", "5551234", ""⟩ 0 true
        .failed (.content [])).2 =
      readBookings (.content []) ++
        [cashRecord ⟨some 2, "Bob Smith", "5551234", ""⟩ 2 0] :=
  (emailFailure_never_propagated 0 (.content []) 2).1
    ⟨some 2, "Bob Smith", "5551234", ""⟩ .failed
    rfl (by decide) (by decide) (by decide) (by decide)

/-- **C9**: with an empty ledger, a 7-day horizon and a Monday today,
the availability listing (v6 and v5 alike) has exactly 6 open entries,
all `booked = false` — the 7-day window minus the Sunday closure
day. -/
theorem availability_mondayWeek_six_open (t : Nat) (h : t % 7 = 1) :
    ((availabilityV6 t 7 []).length = 6 ∧
     (availabilityV6 t 7 []).all (fun e => e.booked == false) = true) ∧
    ((availabilityV5 t 7 []).length = 6 ∧
     (availabilityV5 t 7 []).all (fun e => e.booked == false) = true) := by
  obtain ⟨q, rfl⟩ : ∃ q, t = 7 * q + 1 := ⟨t / 7, by omega⟩
  refine ⟨⟨?_, ?_⟩, ?_, ?_⟩ <;>
    simp +arith [availabilityV6, availabilityV5, dateTaken,
      show List.range 7 = [0, 1, 2, 3, 4, 5, 6] from rfl,
      List.filterMap_cons, Nat.mul_add_mod]

theorem availability_mondayWeek_six_open_witness :
    ((availabilityV6 1 7 []).length = 6 ∧
     (availabilityV6 1 7 []).all (fun e => e.booked == false) = true) ∧
    ((availabilityV5 1 7 []).length = 6 ∧
     (availabilityV5 1 7 []).all (fun e => e.booked == false) = true) :=
  availability_mondayWeek_six_open 1 (by decide)

/-- **C10**: a bookings file that exists but fails to read or to parse
as JSON reads back as the empty sequence — indistinguishable from an
absent (empty) ledger — so every date appears unbooked, and the next
booking whose write succeeds replaces the corrupted contents wholesale
with just the new record. -/
theorem corruptLedger_reads_empty (req : BookReq) (now : Nat) (d : Nat)
    (e : EmailOutcome)
    (hdate : req.date = some d)
    (hname : 2 ≤ (jsTrim req.name).length)
    (hphone : validatePhone req.phone = true)
    (hemail : (req.email != "" && !validateEmail req.email) = false) :
    readBookings .corrupt = ([] : List Booking) ∧
    readBookings .corrupt = readBookings .absent ∧
    (∀ dd : Nat, dateTaken (readBookings .corrupt) dd = false) ∧
    (bookCashV6 req now true e .corrupt).2 =
      .content [cashRecord req d now] := by
  refine ⟨rfl, rfl, fun dd => rfl, ?_⟩
  rw [bookCashV6_success_spec req now true e .corrupt d hdate hname hphone
    hemail rfl]
  rfl

theorem corruptLedger_reads_empty_witness :
    readBookings .corrupt = ([] : List Booking) ∧
    readBookings .corrupt = readBookings .absent ∧
    (∀ dd : Nat, dateTaken (readBookings .corrupt) dd = false) ∧
    (bookCashV6 ⟨some 4, "Bob Smith", "5551234", ""⟩ 7 true .sent
        .corrupt).2 =
      .content [cashRecord ⟨some 4, "Bob Smith", "5551234", ""⟩ 4 7] :=
  corruptLedger_reads_empty _ _ _ _ rfl (by decide) (by decide) (by decide)

end FlawlessFinish
